import Mathlib

/-!
Verification development for `bin/analyze_audio.py` (voice-resonance).

The script is a single linear pipeline: parse two positional arguments,
decode an audio file with librosa, compute summary statistics of several
per-frame features with numpy, serialize them as one compact JSON line to
stdout (exit 0), or print one diagnostic line to stderr and exit 1 on any
exception raised while decoding or computing.

Embedding choices:
* Python floats are modelled as exact rationals `ℚ`; numpy arrays as lists.
* The external libraries (librosa, numpy's `mean`/`std`, the JSON number
  renderer) are modelled as a record of deterministic functions, `Libs`;
  calls that may raise return `Except String`.  Library contracts that the
  repository relies on (e.g. `mfcc` with `n_mfcc = n` returns `n` rows)
  are explicit hypotheses, never baked into the embedding.
* A process outcome records the lines printed to stdout and stderr and the
  exit code.
-/

namespace VoiceResonance

/-- Per-frame output of `librosa.pyin`: frequency estimates, voiced flags,
voicing probabilities (parallel lists, one entry per analysis frame). -/
structure PyinResult where
  f0 : List ℚ
  voiced_flag : List Bool
  voiced_probs : List ℚ
deriving DecidableEq, Repr

/-- The feature record assembled by `extract_features` (the Python dict,
in insertion order). -/
structure Features where
  duration : ℚ
  mean_f0 : ℚ
  std_f0 : ℚ
  mean_spectral_centroid : ℚ
  std_spectral_centroid : ℚ
  mean_rms_energy : ℚ
  std_rms_energy : ℚ
  mean_zcr : ℚ
  std_zcr : ℚ
  mfcc_means : List ℚ
deriving DecidableEq, Repr

/-- Observable behaviour of one process invocation: the lines printed to
stdout, the lines printed to stderr, and the exit status. -/
structure Outcome where
  stdout : List String
  stderr : List String
  exitCode : Nat
deriving DecidableEq, Repr

/-- The external numeric/DSP library surface used by the script
(librosa + numpy + the JSON float renderer), modelled as deterministic
functions.  `load path sr duration` mirrors `librosa.load(path, sr=·,
duration=·)` and returns the sample list and the sampling rate actually
used; the 2-D librosa feature outputs are lists of rows, which the script
indexes with `[0]`.  `mean`/`std` model `np.mean`/`np.std`. -/
structure Libs where
  load : String → Option ℚ → Option ℚ → Except String (List ℚ × ℚ)
  get_duration : List ℚ → ℚ → ℚ
  note_to_hz : String → ℚ
  pyin : List ℚ → ℚ → ℚ → Except String PyinResult
  spectral_centroid : List ℚ → ℚ → Except String (List (List ℚ))
  rms : List ℚ → Except String (List (List ℚ))
  zero_crossing_rate : List ℚ → Except String (List (List ℚ))
  mfcc : List ℚ → ℚ → Nat → Except String (List (List ℚ))
  mean : List ℚ → ℚ
  std : List ℚ → ℚ
  jsonNum : ℚ → String

/-- Python `arr[0]` on a 2-D array: the first row, or an `IndexError`
(propagating to the unified handler) when there is none. -/
def row0 : List (List ℚ) → Except String (List ℚ)
  | [] => Except.error "index 0 is out of bounds"
  | r :: _ => Except.ok r

/-- `f0[voiced_flag]`: boolean-mask selection keeping exactly the frames
whose voiced flag is true. -/
def f0Voiced (p : PyinResult) : List ℚ :=
  ((p.f0.zip p.voiced_flag).filter fun q => q.2).map fun q => q.1

/-- The `features` dict assembled at the end of the `try` block of
`extract_features`, given the values returned by the library calls
(`sc`, `rmsRow`, `zcrRow` are the `[0]` rows; `mfccs` the 2-D MFCC
matrix).  Field by field this is lines 49–95 of the script. -/
def mkFeatures (lib : Libs) (y : List ℚ) (sr : ℚ) (p : PyinResult)
    (sc rmsRow zcrRow : List ℚ) (mfccs : List (List ℚ)) : Features :=
  { duration := lib.get_duration y sr
    mean_f0 := if (f0Voiced p).length > 0 then lib.mean (f0Voiced p) else 0
    std_f0 := if (f0Voiced p).length > 0 then lib.std (f0Voiced p) else 0
    mean_spectral_centroid := lib.mean sc
    std_spectral_centroid := lib.std sc
    mean_rms_energy := lib.mean rmsRow
    std_rms_energy := lib.std rmsRow
    mean_zcr := lib.mean zcrRow
    std_zcr := lib.std zcrRow
    mfcc_means := mfccs.map lib.mean }

/-- The `try` block of `extract_features`: decode, then compute the five
feature families; the first exception aborts the whole computation.
`load` is called with `sr=None, duration=None` (native rate, full file);
`pyin` with the C2..C7 range; `mfcc` with `n_mfcc=13`. -/
def feature_pipeline (lib : Libs) (file_path : String) : Except String Features :=
  match lib.load file_path none none with
  | Except.error e => Except.error e
  | Except.ok (y, sr) =>
    match lib.pyin y (lib.note_to_hz "C2") (lib.note_to_hz "C7") with
    | Except.error e => Except.error e
    | Except.ok p =>
      match lib.spectral_centroid y sr with
      | Except.error e => Except.error e
      | Except.ok sc2 =>
        match row0 sc2 with
        | Except.error e => Except.error e
        | Except.ok sc =>
          match lib.rms y with
          | Except.error e => Except.error e
          | Except.ok rms2 =>
            match row0 rms2 with
            | Except.error e => Except.error e
            | Except.ok rmsRow =>
              match lib.zero_crossing_rate y with
              | Except.error e => Except.error e
              | Except.ok zcr2 =>
                match row0 zcr2 with
                | Except.error e => Except.error e
                | Except.ok zcrRow =>
                  match lib.mfcc y sr 13 with
                  | Except.error e => Except.error e
                  | Except.ok mfccs =>
                    Except.ok (mkFeatures lib y sr p sc rmsRow zcrRow mfccs)

/-- The diagnostic line printed by the `except` clause:
`f"Error processing file '{original_filename}' ({file_path}): {e}"`. -/
def errMsg (original_filename file_path e : String) : String :=
  "Error processing file '" ++ original_filename ++ "' (" ++ file_path ++ "): " ++ e

/-- `extract_features`: run the `try` block; on any exception print the
diagnostic to stderr and exit 1 (the error side carries that outcome). -/
def extract_features (lib : Libs) (file_path original_filename : String) :
    Except Outcome Features :=
  match feature_pipeline lib file_path with
  | Except.ok features => Except.ok features
  | Except.error e =>
    Except.error
      { stdout := []
        stderr := [errMsg original_filename file_path e]
        exitCode := 1 }

/-- The usage line printed on a wrong argument count. -/
def usageMsg : String :=
  "Usage: python3 analyze_audio.py <temp_file_path> <original_filename>"

/-- Comma-join of already-rendered strings: the element separator of
`json.dumps(..., separators=(',', ':'))` inside an array. -/
def joinComma : List String → String
  | [] => ""
  | [s] => s
  | s :: rest => s ++ "," ++ joinComma rest

/-- `json.dumps(features, separators=(',', ':'))` for the fixed dict shape
assembled by the script: one compact object, keys in insertion order,
numbers rendered by `numRepr`, `mfcc_means` as a JSON array. -/
def dumps (numRepr : ℚ → String) (f : Features) : String :=
  "\x7b\"duration\":" ++ numRepr f.duration ++
  ",\"mean_f0\":" ++ numRepr f.mean_f0 ++
  ",\"std_f0\":" ++ numRepr f.std_f0 ++
  ",\"mean_spectral_centroid\":" ++ numRepr f.mean_spectral_centroid ++
  ",\"std_spectral_centroid\":" ++ numRepr f.std_spectral_centroid ++
  ",\"mean_rms_energy\":" ++ numRepr f.mean_rms_energy ++
  ",\"std_rms_energy\":" ++ numRepr f.std_rms_energy ++
  ",\"mean_zcr\":" ++ numRepr f.mean_zcr ++
  ",\"std_zcr\":" ++ numRepr f.std_zcr ++
  ",\"mfcc_means\":[" ++ joinComma (f.mfcc_means.map numRepr) ++ "]\x7d"

/-- `main`: check `len(sys.argv) != 3`, else run `extract_features` on
`sys.argv[1]`, `sys.argv[2]` and print the compact JSON line. -/
def pymain (lib : Libs) (argv : List String) : Outcome :=
  if argv.length ≠ 3 then
    { stdout := [], stderr := [usageMsg], exitCode := 1 }
  else
    let temp_file_path := argv.getD 1 ""
    let original_filename := argv.getD 2 ""
    match extract_features lib temp_file_path original_filename with
    | Except.error out => out
    | Except.ok features =>
      { stdout := [dumps lib.jsonNum features], stderr := [], exitCode := 0 }

/-- JSON values, as far as this script's output needs them. -/
inductive Json where
  | num (q : ℚ)
  | arr (elems : List Json)
  | obj (fields : List (String × Json))

/-- The JSON value the `features` dict denotes (the argument of
`json.dumps`): ordered keys, numeric scalars, `mfcc_means` an array of
numbers. -/
def features_to_json (f : Features) : Json :=
  Json.obj
    [("duration", Json.num f.duration),
     ("mean_f0", Json.num f.mean_f0),
     ("std_f0", Json.num f.std_f0),
     ("mean_spectral_centroid", Json.num f.mean_spectral_centroid),
     ("std_spectral_centroid", Json.num f.std_spectral_centroid),
     ("mean_rms_energy", Json.num f.mean_rms_energy),
     ("std_rms_energy", Json.num f.std_rms_energy),
     ("mean_zcr", Json.num f.mean_zcr),
     ("std_zcr", Json.num f.std_zcr),
     ("mfcc_means", Json.arr (f.mfcc_means.map Json.num))]

/-- The key list of a JSON object. -/
def jsonKeys : Json → List String
  | Json.obj fs => fs.map fun kv => kv.1
  | _ => []

/-- Arithmetic (population) mean, the documented semantics of `np.mean`
on a nonempty 1-D array. -/
def arithMean (xs : List ℚ) : ℚ := xs.sum / xs.length

/-- Library contract: `np.mean` computes the arithmetic mean. -/
def MeanOk (lib : Libs) : Prop := ∀ xs, lib.mean xs = arithMean xs

/-- Library contract: `np.std` is non-negative (it is a square root). -/
def StdNonneg (lib : Libs) : Prop := ∀ xs, 0 ≤ lib.std xs

/-- Library contract: `librosa.get_duration(y=y, sr=sr)` is
`len(y) / sr` seconds. -/
def GetDurOk (lib : Libs) : Prop :=
  ∀ y sr, lib.get_duration y sr = (y.length : ℚ) / sr

/-- Library contract: `librosa.feature.mfcc` with `n_mfcc = n` returns a
matrix of exactly `n` coefficient rows. -/
def MfccOk (lib : Libs) : Prop :=
  ∀ y sr n rows, lib.mfcc y sr n = Except.ok rows → rows.length = n

/-- A string with no newline character: it prints as a single line. -/
def strNoNL (s : String) : Prop := ∀ c ∈ s.data, c ≠ '\n'

instance (s : String) : Decidable (strNoNL s) :=
  inferInstanceAs (Decidable (∀ c ∈ s.data, c ≠ '\n'))

/-- A concrete `pyin` result used to evaluate the theorems: two frames,
the first voiced at 100 Hz, the second unvoiced. -/
def witPyin : PyinResult :=
  { f0 := [100, 200], voiced_flag := [true, false], voiced_probs := [1, 0] }

/-- A concrete, well-behaved library instance: decodes every path to the
two-sample signal `[0, 0]` at rate 2, with fixed per-frame feature rows,
`mean` the arithmetic mean and `std` identically 0. -/
def witLib : Libs :=
  { load := fun _ _ _ => Except.ok ([0, 0], 2)
    get_duration := fun y sr => (y.length : ℚ) / sr
    note_to_hz := fun _ => 65
    pyin := fun _ _ _ => Except.ok witPyin
    spectral_centroid := fun _ _ => Except.ok [[1, 3]]
    rms := fun _ => Except.ok [[0, 1]]
    zero_crossing_rate := fun _ => Except.ok [[0, 1]]
    mfcc := fun _ _ n => Except.ok (List.replicate n [2])
    mean := arithMean
    std := fun _ => 0
    jsonNum := fun _ => "0" }

/-- A library instance whose decoder always raises. -/
def witLibBad : Libs :=
  { witLib with load := fun _ _ _ => Except.error "decode failed" }

/-- The feature record `witLib` produces on any path. -/
def wFeats : Features :=
  mkFeatures witLib [0, 0] 2 witPyin [1, 3] [0, 1] [0, 1] (List.replicate 13 [2])

/-- Spec-side definition (for the refinement claim C1), following the
words of §6: the output object has exactly the nine scalar numeric keys in
order followed by `mfcc_means`, a 13-element numeric array, and nothing
else. -/
def SpecOutputShape (j : Json) : Prop :=
  ∃ scalars : List (String × ℚ), ∃ ms : List ℚ,
    j = Json.obj
        (scalars.map (fun kv => (kv.1, Json.num kv.2)) ++
          [("mfcc_means", Json.arr (ms.map Json.num))]) ∧
    scalars.map (fun kv => kv.1) =
      ["duration", "mean_f0", "std_f0", "mean_spectral_centroid",
       "std_spectral_centroid", "mean_rms_energy", "std_rms_energy",
       "mean_zcr", "std_zcr"] ∧
    ms.length = 13

/-- Successful run of the `try` block: when every library call succeeds
(and each 2-D feature output has a first row), the pipeline returns the
assembled feature record. -/
theorem feature_pipeline_ok (lib : Libs) (path : String) (y : List ℚ) (sr : ℚ)
    (p : PyinResult) (scRow rmsRow zcrRow : List ℚ)
    (scRest rmsRest zcrRest mfccs : List (List ℚ))
    (hload : lib.load path none none = Except.ok (y, sr))
    (hpyin : lib.pyin y (lib.note_to_hz "C2") (lib.note_to_hz "C7") = Except.ok p)
    (hsc : lib.spectral_centroid y sr = Except.ok (scRow :: scRest))
    (hrms : lib.rms y = Except.ok (rmsRow :: rmsRest))
    (hzcr : lib.zero_crossing_rate y = Except.ok (zcrRow :: zcrRest))
    (hmfcc : lib.mfcc y sr 13 = Except.ok mfccs) :
    feature_pipeline lib path =
      Except.ok (mkFeatures lib y sr p scRow rmsRow zcrRow mfccs) := by
  simp [feature_pipeline, hload, hpyin, hsc, hrms, hzcr, hmfcc, row0]

/-- A successful pipeline makes `main` print exactly the one JSON line and
exit 0. -/
theorem pymain_ok (lib : Libs) (prog path orig : String) (feats : Features)
    (h : feature_pipeline lib path = Except.ok feats) :
    pymain lib [prog, path, orig] =
      { stdout := [dumps lib.jsonNum feats], stderr := [], exitCode := 0 } := by
  simp [pymain, extract_features, h]

/-- A failing pipeline makes `main` print exactly the one diagnostic line
to stderr and exit 1, with empty stdout. -/
theorem pymain_err (lib : Libs) (prog path orig e : String)
    (h : feature_pipeline lib path = Except.error e) :
    pymain lib [prog, path, orig] =
      { stdout := [], stderr := [errMsg orig path e], exitCode := 1 } := by
  simp [pymain, extract_features, h]

theorem strNoNL_append (a b : String) (ha : strNoNL a) (hb : strNoNL b) :
    strNoNL (a ++ b) := by
  intro c hc
  rw [String.data_append] at hc
  rcases List.mem_append.mp hc with h | h
  · exact ha c h
  · exact hb c h

theorem strNoNL_joinComma (l : List String) (h : ∀ s ∈ l, strNoNL s) :
    strNoNL (joinComma l) := by
  induction l with
  | nil => intro c hc; simp [joinComma] at hc
  | cons s rest ih =>
    cases rest with
    | nil => simpa [joinComma] using h s (by simp)
    | cons t ts =>
      refine strNoNL_append _ _ (strNoNL_append _ _ (h s (by simp)) (by decide)) ?_
      exact ih fun u hu => h u (List.mem_cons_of_mem s hu)

/-- The serialized feature line contains no newline provided the number
renderer emits none. -/
theorem strNoNL_dumps (numRepr : ℚ → String) (f : Features)
    (h : ∀ q, strNoNL (numRepr q)) : strNoNL (dumps numRepr f) := by
  unfold dumps
  repeat' apply strNoNL_append
  all_goals first
    | exact h _
    | decide
    | (apply strNoNL_joinComma
       intro s hs
       rcases List.mem_map.mp hs with ⟨q, _, rfl⟩
       exact h q)

theorem arithMean_nonneg (xs : List ℚ) (h : ∀ x ∈ xs, 0 ≤ x) :
    0 ≤ arithMean xs :=
  div_nonneg (List.sum_nonneg h) (Nat.cast_nonneg _)

theorem arithMean_le_one (xs : List ℚ) (h : ∀ x ∈ xs, x ≤ 1) :
    arithMean xs ≤ 1 := by
  cases xs with
  | nil => simp [arithMean]
  | cons a l =>
    have hlen : (0 : ℚ) < ((a :: l).length : ℚ) := by
      exact_mod_cast Nat.succ_pos l.length
    rw [arithMean, div_le_one hlen]
    calc (a :: l).sum ≤ (a :: l).length • (1 : ℚ) :=
          List.sum_le_card_nsmul _ _ h
      _ = ((a :: l).length : ℚ) := by simp

/-- Any feature record with a 13-entry `mfcc_means` serializes to a JSON
value of the §6 shape. -/
theorem specOutputShape_features (f : Features) (h13 : f.mfcc_means.length = 13) :
    SpecOutputShape (features_to_json f) :=
  ⟨[("duration", f.duration), ("mean_f0", f.mean_f0), ("std_f0", f.std_f0),
    ("mean_spectral_centroid", f.mean_spectral_centroid),
    ("std_spectral_centroid", f.std_spectral_centroid),
    ("mean_rms_energy", f.mean_rms_energy), ("std_rms_energy", f.std_rms_energy),
    ("mean_zcr", f.mean_zcr), ("std_zcr", f.std_zcr)], f.mfcc_means,
   by simp [features_to_json], by simp, h13⟩

/-- C1: for every decodable audio input on which the feature computations
succeed (with the library honouring `n_mfcc = 13`) and a correct argument
count, the program exits 0 and writes to stdout exactly one line: the
compact JSON object with exactly the ten keys `duration .. mfcc_means` in
order, nine numeric scalars, and `mfcc_means` a 13-element numeric
sequence — no extra keys, no trailing output, no embedded newline
(provided the number renderer emits none). -/
theorem claim_C1 (lib : Libs) (prog path orig : String) (y : List ℚ) (sr : ℚ)
    (p : PyinResult) (scRow rmsRow zcrRow : List ℚ)
    (scRest rmsRest zcrRest mfccs : List (List ℚ))
    (hload : lib.load path none none = Except.ok (y, sr))
    (hpyin : lib.pyin y (lib.note_to_hz "C2") (lib.note_to_hz "C7") = Except.ok p)
    (hsc : lib.spectral_centroid y sr = Except.ok (scRow :: scRest))
    (hrms : lib.rms y = Except.ok (rmsRow :: rmsRest))
    (hzcr : lib.zero_crossing_rate y = Except.ok (zcrRow :: zcrRest))
    (hmfcc : lib.mfcc y sr 13 = Except.ok mfccs)
    (hm13 : mfccs.length = 13)
    (hnl : ∀ q, strNoNL (lib.jsonNum q)) :
    pymain lib [prog, path, orig] =
      { stdout := [dumps lib.jsonNum (mkFeatures lib y sr p scRow rmsRow zcrRow mfccs)]
        stderr := []
        exitCode := 0 } ∧
    strNoNL (dumps lib.jsonNum (mkFeatures lib y sr p scRow rmsRow zcrRow mfccs)) ∧
    SpecOutputShape (features_to_json (mkFeatures lib y sr p scRow rmsRow zcrRow mfccs)) := by
  refine ⟨pymain_ok _ _ _ _ _
      (feature_pipeline_ok _ _ _ _ _ _ _ _ _ _ _ _ hload hpyin hsc hrms hzcr hmfcc),
    strNoNL_dumps _ _ hnl, specOutputShape_features _ ?_⟩
  simp [mkFeatures, hm13]

/-- C1 witness at a concrete library and invocation. -/
theorem claim_C1_w :
    pymain witLib ["analyze_audio.py", "f.wav", "orig.wav"] =
      { stdout := [dumps witLib.jsonNum wFeats], stderr := [], exitCode := 0 } ∧
    strNoNL (dumps witLib.jsonNum wFeats) ∧
    SpecOutputShape (features_to_json wFeats) :=
  claim_C1 witLib "analyze_audio.py" "f.wav" "orig.wav" [0, 0] 2 witPyin
    [1, 3] [0, 1] [0, 1] [] [] [] (List.replicate 13 [2])
    rfl rfl rfl rfl rfl rfl (by simp) (fun _ => (by decide : strNoNL "0"))

/-- C2: any exception raised while decoding or computing features makes
the program write the single diagnostic line — containing the original
filename label, the file path and the underlying error text — to stderr,
write nothing to stdout, and exit 1; every error, whatever its stage,
routes through this one handler and this one message shape. -/
theorem claim_C2 (lib : Libs) (prog path orig e : String)
    (h : feature_pipeline lib path = Except.error e) :
    pymain lib [prog, path, orig] =
      { stdout := [], stderr := [errMsg orig path e], exitCode := 1 } ∧
    ∃ a b c, errMsg orig path e = a ++ orig ++ b ++ path ++ c ++ e :=
  ⟨pymain_err _ _ _ _ _ h, "Error processing file '", "' (", "): ", rfl⟩

/-- C2 witness: a decoder that raises. -/
theorem claim_C2_w :
    pymain witLibBad ["analyze_audio.py", "f.wav", "orig.wav"] =
      { stdout := []
        stderr := [errMsg "orig.wav" "f.wav" "decode failed"]
        exitCode := 1 } ∧
    ∃ a b c, errMsg "orig.wav" "f.wav" "decode failed" =
      a ++ "orig.wav" ++ b ++ "f.wav" ++ c ++ "decode failed" :=
  claim_C2 witLibBad "analyze_audio.py" "f.wav" "orig.wav" "decode failed" rfl

/-- C3: with an argument count other than two, the program writes the
usage message to stderr and exits 1, and the outcome is the same for
every library instance — no file access or other library I/O can have
influenced it. -/
theorem claim_C3 (lib lib2 : Libs) (prog : String) (args : List String)
    (h : args.length ≠ 2) :
    pymain lib (prog :: args) =
      { stdout := [], stderr := [usageMsg], exitCode := 1 } ∧
    pymain lib (prog :: args) = pymain lib2 (prog :: args) := by
  constructor
  · simp [pymain, h]
  · simp [pymain, h]

/-- C3 witness: zero positional arguments. -/
theorem claim_C3_w :
    pymain witLib ["analyze_audio.py"] =
      { stdout := [], stderr := [usageMsg], exitCode := 1 } ∧
    pymain witLib ["analyze_audio.py"] = pymain witLibBad ["analyze_audio.py"] :=
  claim_C3 witLib witLibBad "analyze_audio.py" [] (by decide)

/-- C4: on any decoded waveform, `mean_f0` and `std_f0` are `np.mean` /
`np.std` of the pitch-tracker estimates restricted to the frames whose
voiced flag is true (`np.mean` being the arithmetic mean), and when no
frame is voiced both are exactly 0 and the pipeline still succeeds. -/
theorem claim_C4 (lib : Libs) (path : String) (y : List ℚ) (sr : ℚ)
    (p : PyinResult) (scRow rmsRow zcrRow : List ℚ)
    (scRest rmsRest zcrRest mfccs : List (List ℚ))
    (hload : lib.load path none none = Except.ok (y, sr))
    (hpyin : lib.pyin y (lib.note_to_hz "C2") (lib.note_to_hz "C7") = Except.ok p)
    (hsc : lib.spectral_centroid y sr = Except.ok (scRow :: scRest))
    (hrms : lib.rms y = Except.ok (rmsRow :: rmsRest))
    (hzcr : lib.zero_crossing_rate y = Except.ok (zcrRow :: zcrRest))
    (hmfcc : lib.mfcc y sr 13 = Except.ok mfccs)
    (hmean : MeanOk lib) :
    (f0Voiced p = [] →
      (mkFeatures lib y sr p scRow rmsRow zcrRow mfccs).mean_f0 = 0 ∧
      (mkFeatures lib y sr p scRow rmsRow zcrRow mfccs).std_f0 = 0) ∧
    (f0Voiced p ≠ [] →
      (mkFeatures lib y sr p scRow rmsRow zcrRow mfccs).mean_f0 = arithMean (f0Voiced p) ∧
      (mkFeatures lib y sr p scRow rmsRow zcrRow mfccs).std_f0 = lib.std (f0Voiced p)) ∧
    feature_pipeline lib path = Except.ok (mkFeatures lib y sr p scRow rmsRow zcrRow mfccs) := by
  refine ⟨?_, ?_,
    feature_pipeline_ok _ _ _ _ _ _ _ _ _ _ _ _ hload hpyin hsc hrms hzcr hmfcc⟩
  · intro he
    constructor <;> simp [mkFeatures, he]
  · intro hne
    have hlen : 0 < (f0Voiced p).length := List.length_pos.mpr hne
    constructor
    · simpa [mkFeatures, hlen] using hmean (f0Voiced p)
    · simp [mkFeatures, hlen]

/-- C4 witness: one voiced frame at 100 Hz, one unvoiced frame. -/
theorem claim_C4_w :
    (f0Voiced witPyin = [] → wFeats.mean_f0 = 0 ∧ wFeats.std_f0 = 0) ∧
    (f0Voiced witPyin ≠ [] →
      wFeats.mean_f0 = arithMean (f0Voiced witPyin) ∧
      wFeats.std_f0 = witLib.std (f0Voiced witPyin)) ∧
    feature_pipeline witLib "f.wav" = Except.ok wFeats :=
  claim_C4 witLib "f.wav" [0, 0] 2 witPyin [1, 3] [0, 1] [0, 1] [] [] []
    (List.replicate 13 [2]) rfl rfl rfl rfl rfl rfl (fun _ => rfl)

/-- C5: the MFCC stage is invoked with `n_mfcc = 13`, so (by the library
contract) the matrix has exactly 13 coefficient rows; `mfcc_means` is the
per-row arithmetic mean in row order — entry `i` is the mean of cepstral
coefficient `i`, coefficient 0 first. -/
theorem claim_C5 (lib : Libs) (path : String) (y : List ℚ) (sr : ℚ)
    (p : PyinResult) (scRow rmsRow zcrRow : List ℚ)
    (scRest rmsRest zcrRest mfccs : List (List ℚ))
    (hload : lib.load path none none = Except.ok (y, sr))
    (hpyin : lib.pyin y (lib.note_to_hz "C2") (lib.note_to_hz "C7") = Except.ok p)
    (hsc : lib.spectral_centroid y sr = Except.ok (scRow :: scRest))
    (hrms : lib.rms y = Except.ok (rmsRow :: rmsRest))
    (hzcr : lib.zero_crossing_rate y = Except.ok (zcrRow :: zcrRest))
    (hmfcc : lib.mfcc y sr 13 = Except.ok mfccs)
    (hmfccok : MfccOk lib)
    (hmean : MeanOk lib) :
    (mkFeatures lib y sr p scRow rmsRow zcrRow mfccs).mfcc_means.length = 13 ∧
    (mkFeatures lib y sr p scRow rmsRow zcrRow mfccs).mfcc_means = mfccs.map lib.mean ∧
    (∀ i, i < 13 →
      (mkFeatures lib y sr p scRow rmsRow zcrRow mfccs).mfcc_means.getD i 0 =
        arithMean (mfccs.getD i [])) ∧
    feature_pipeline lib path = Except.ok (mkFeatures lib y sr p scRow rmsRow zcrRow mfccs) := by
  have hm13 : mfccs.length = 13 := hmfccok y sr 13 mfccs hmfcc
  refine ⟨by simp [mkFeatures, hm13], rfl, ?_,
    feature_pipeline_ok _ _ _ _ _ _ _ _ _ _ _ _ hload hpyin hsc hrms hzcr hmfcc⟩
  intro i hi
  have hi2 : i < mfccs.length := hm13 ▸ hi
  simp [mkFeatures, List.getD_eq_getElem?_getD, List.getElem?_map,
    List.getElem?_eq_getElem hi2]
  exact hmean _

/-- `witLib` honours the `n_mfcc` contract. -/
theorem witLib_mfccok : MfccOk witLib := by
  intro y sr n rows hh
  have h2 : List.replicate n ([2] : List ℚ) = rows := by
    simpa [witLib] using hh
  rw [← h2]
  simp

/-- C5 witness: 13 constant coefficient rows. -/
theorem claim_C5_w :
    wFeats.mfcc_means.length = 13 ∧
    wFeats.mfcc_means = (List.replicate 13 ([2] : List ℚ)).map witLib.mean ∧
    (∀ i, i < 13 →
      wFeats.mfcc_means.getD i 0 =
        arithMean ((List.replicate 13 ([2] : List ℚ)).getD i [])) ∧
    feature_pipeline witLib "f.wav" = Except.ok wFeats :=
  claim_C5 witLib "f.wav" [0, 0] 2 witPyin [1, 3] [0, 1] [0, 1] [] [] []
    (List.replicate 13 [2]) rfl rfl rfl rfl rfl rfl witLib_mfccok (fun _ => rfl)

/-- C6: spectral-centroid, RMS-energy and zero-crossing-rate statistics
are `np.mean` / `np.std` over the full per-frame rows (all analysis
frames): no voicing filter touches any of them. -/
theorem claim_C6 (lib : Libs) (path : String) (y : List ℚ) (sr : ℚ)
    (p : PyinResult) (scRow rmsRow zcrRow : List ℚ)
    (scRest rmsRest zcrRest mfccs : List (List ℚ))
    (hload : lib.load path none none = Except.ok (y, sr))
    (hpyin : lib.pyin y (lib.note_to_hz "C2") (lib.note_to_hz "C7") = Except.ok p)
    (hsc : lib.spectral_centroid y sr = Except.ok (scRow :: scRest))
    (hrms : lib.rms y = Except.ok (rmsRow :: rmsRest))
    (hzcr : lib.zero_crossing_rate y = Except.ok (zcrRow :: zcrRest))
    (hmfcc : lib.mfcc y sr 13 = Except.ok mfccs)
    (hmean : MeanOk lib) :
    (mkFeatures lib y sr p scRow rmsRow zcrRow mfccs).mean_spectral_centroid = arithMean scRow ∧
    (mkFeatures lib y sr p scRow rmsRow zcrRow mfccs).std_spectral_centroid = lib.std scRow ∧
    (mkFeatures lib y sr p scRow rmsRow zcrRow mfccs).mean_rms_energy = arithMean rmsRow ∧
    (mkFeatures lib y sr p scRow rmsRow zcrRow mfccs).std_rms_energy = lib.std rmsRow ∧
    (mkFeatures lib y sr p scRow rmsRow zcrRow mfccs).mean_zcr = arithMean zcrRow ∧
    (mkFeatures lib y sr p scRow rmsRow zcrRow mfccs).std_zcr = lib.std zcrRow ∧
    feature_pipeline lib path = Except.ok (mkFeatures lib y sr p scRow rmsRow zcrRow mfccs) :=
  ⟨hmean scRow, rfl, hmean rmsRow, rfl, hmean zcrRow, rfl,
    feature_pipeline_ok _ _ _ _ _ _ _ _ _ _ _ _ hload hpyin hsc hrms hzcr hmfcc⟩

/-- C6 witness. -/
theorem claim_C6_w :
    wFeats.mean_spectral_centroid = arithMean [1, 3] ∧
    wFeats.std_spectral_centroid = witLib.std [1, 3] ∧
    wFeats.mean_rms_energy = arithMean [0, 1] ∧
    wFeats.std_rms_energy = witLib.std [0, 1] ∧
    wFeats.mean_zcr = arithMean [0, 1] ∧
    wFeats.std_zcr = witLib.std [0, 1] ∧
    feature_pipeline witLib "f.wav" = Except.ok wFeats :=
  claim_C6 witLib "f.wav" [0, 0] 2 witPyin [1, 3] [0, 1] [0, 1] [] [] []
    (List.replicate 13 [2]) rfl rfl rfl rfl rfl rfl (fun _ => rfl)

/-- C8: on a successful run the emitted record satisfies the data-model
range constraints: duration and the standard deviations and mean RMS
energy are non-negative, and `mean_zcr` lies in `[0, 1]` — given the
library contracts (`np.mean` arithmetic, `np.std ≥ 0`, duration
`len(y)/sr` with positive rate, per-frame RMS non-negative, per-frame ZCR
in `[0, 1]`). -/
theorem claim_C8 (lib : Libs) (path : String) (y : List ℚ) (sr : ℚ)
    (p : PyinResult) (scRow rmsRow zcrRow : List ℚ)
    (scRest rmsRest zcrRest mfccs : List (List ℚ))
    (hload : lib.load path none none = Except.ok (y, sr))
    (hpyin : lib.pyin y (lib.note_to_hz "C2") (lib.note_to_hz "C7") = Except.ok p)
    (hsc : lib.spectral_centroid y sr = Except.ok (scRow :: scRest))
    (hrms : lib.rms y = Except.ok (rmsRow :: rmsRest))
    (hzcr : lib.zero_crossing_rate y = Except.ok (zcrRow :: zcrRest))
    (hmfcc : lib.mfcc y sr 13 = Except.ok mfccs)
    (hmean : MeanOk lib) (hstd : StdNonneg lib) (hdur : GetDurOk lib)
    (hsr : 0 < sr)
    (hrmsNN : ∀ x ∈ rmsRow, 0 ≤ x)
    (hzcr01 : ∀ x ∈ zcrRow, 0 ≤ x ∧ x ≤ 1) :
    0 ≤ (mkFeatures lib y sr p scRow rmsRow zcrRow mfccs).duration ∧
    0 ≤ (mkFeatures lib y sr p scRow rmsRow zcrRow mfccs).std_f0 ∧
    0 ≤ (mkFeatures lib y sr p scRow rmsRow zcrRow mfccs).std_spectral_centroid ∧
    0 ≤ (mkFeatures lib y sr p scRow rmsRow zcrRow mfccs).mean_rms_energy ∧
    0 ≤ (mkFeatures lib y sr p scRow rmsRow zcrRow mfccs).std_rms_energy ∧
    0 ≤ (mkFeatures lib y sr p scRow rmsRow zcrRow mfccs).std_zcr ∧
    0 ≤ (mkFeatures lib y sr p scRow rmsRow zcrRow mfccs).mean_zcr ∧
    (mkFeatures lib y sr p scRow rmsRow zcrRow mfccs).mean_zcr ≤ 1 ∧
    feature_pipeline lib path = Except.ok (mkFeatures lib y sr p scRow rmsRow zcrRow mfccs) := by
  refine ⟨?_, ?_, hstd scRow, ?_, hstd rmsRow, hstd zcrRow, ?_, ?_,
    feature_pipeline_ok _ _ _ _ _ _ _ _ _ _ _ _ hload hpyin hsc hrms hzcr hmfcc⟩
  · show 0 ≤ lib.get_duration y sr
    rw [hdur]
    exact div_nonneg (Nat.cast_nonneg _) (le_of_lt hsr)
  · by_cases hh : 0 < (f0Voiced p).length
    · simpa [mkFeatures, hh] using hstd (f0Voiced p)
    · simp [mkFeatures, hh]
  · show 0 ≤ lib.mean rmsRow
    rw [hmean]
    exact arithMean_nonneg _ hrmsNN
  · show 0 ≤ lib.mean zcrRow
    rw [hmean]
    exact arithMean_nonneg _ fun x hx => (hzcr01 x hx).1
  · show lib.mean zcrRow ≤ 1
    rw [hmean]
    exact arithMean_le_one _ fun x hx => (hzcr01 x hx).2

/-- C8 witness. -/
theorem claim_C8_w :
    0 ≤ wFeats.duration ∧ 0 ≤ wFeats.std_f0 ∧
    0 ≤ wFeats.std_spectral_centroid ∧ 0 ≤ wFeats.mean_rms_energy ∧
    0 ≤ wFeats.std_rms_energy ∧ 0 ≤ wFeats.std_zcr ∧
    0 ≤ wFeats.mean_zcr ∧ wFeats.mean_zcr ≤ 1 ∧
    feature_pipeline witLib "f.wav" = Except.ok wFeats :=
  claim_C8 witLib "f.wav" [0, 0] 2 witPyin [1, 3] [0, 1] [0, 1] [] [] []
    (List.replicate 13 [2]) rfl rfl rfl rfl rfl rfl
    (fun _ => rfl) (fun _ => le_refl 0) (fun _ _ => rfl) (by norm_num)
    (by intro x hx; rcases List.mem_cons.mp hx with rfl | hx2
        · norm_num
        · rcases List.mem_singleton.mp hx2 with rfl; norm_num)
    (by intro x hx; rcases List.mem_cons.mp hx with rfl | hx2
        · norm_num
        · rcases List.mem_singleton.mp hx2 with rfl; norm_num)

/-- C9: decoding is requested at the file's native rate and full duration
(`sr=None`, `duration=None`): the program's behaviour depends on the
decoder only through its value at `(path, none, none)`, and `duration` is
computed from the full decoded waveform as `len(y)/sr`. -/
theorem claim_C9 (lib : Libs)
    (g : String → Option ℚ → Option ℚ → Except String (List ℚ × ℚ))
    (hg : ∀ pth, g pth none none = lib.load pth none none)
    (path : String) (y : List ℚ) (sr : ℚ)
    (p : PyinResult) (scRow rmsRow zcrRow : List ℚ)
    (scRest rmsRest zcrRest mfccs : List (List ℚ))
    (hload : lib.load path none none = Except.ok (y, sr))
    (hpyin : lib.pyin y (lib.note_to_hz "C2") (lib.note_to_hz "C7") = Except.ok p)
    (hsc : lib.spectral_centroid y sr = Except.ok (scRow :: scRest))
    (hrms : lib.rms y = Except.ok (rmsRow :: rmsRest))
    (hzcr : lib.zero_crossing_rate y = Except.ok (zcrRow :: zcrRest))
    (hmfcc : lib.mfcc y sr 13 = Except.ok mfccs)
    (hdur : GetDurOk lib) :
    (∀ argv, pymain { lib with load := g } argv = pymain lib argv) ∧
    (mkFeatures lib y sr p scRow rmsRow zcrRow mfccs).duration = (y.length : ℚ) / sr ∧
    feature_pipeline lib path = Except.ok (mkFeatures lib y sr p scRow rmsRow zcrRow mfccs) := by
  refine ⟨?_, ?_,
    feature_pipeline_ok _ _ _ _ _ _ _ _ _ _ _ _ hload hpyin hsc hrms hzcr hmfcc⟩
  · intro argv
    have hfp : ∀ pth, feature_pipeline { lib with load := g } pth = feature_pipeline lib pth := by
      intro pth
      unfold feature_pipeline
      rw [show Libs.load { lib with load := g } pth none none =
            lib.load pth none none from hg pth]
      rfl
    simp [pymain, extract_features, hfp]
  · show lib.get_duration y sr = _
    rw [hdur]

/-- C9 witness. -/
theorem claim_C9_w :
    (∀ argv, pymain { witLib with load := witLib.load } argv = pymain witLib argv) ∧
    wFeats.duration = ((([0, 0] : List ℚ).length : ℚ)) / 2 ∧
    feature_pipeline witLib "f.wav" = Except.ok wFeats :=
  claim_C9 witLib witLib.load (fun _ => rfl) "f.wav" [0, 0] 2 witPyin
    [1, 3] [0, 1] [0, 1] [] [] [] (List.replicate 13 [2])
    rfl rfl rfl rfl rfl rfl (fun _ _ => rfl)

/-- C7: two runs of the program on the same library state and the same
argument vector produce identical outcomes — in particular byte-identical
stdout (the pipeline is a pure function of its input). -/
theorem claim_C7 (lib : Libs) (argv : List String) (o1 o2 : Outcome)
    (h1 : o1 = pymain lib argv) (h2 : o2 = pymain lib argv) :
    o1.stdout = o2.stdout ∧ o1 = o2 := by
  subst h1
  subst h2
  exact ⟨rfl, rfl⟩

/-- C7 witness at a concrete invocation. -/
theorem claim_C7_w :
    (pymain witLib ["p", "f.wav", "o.wav"]).stdout =
      (pymain witLib ["p", "f.wav", "o.wav"]).stdout ∧
    pymain witLib ["p", "f.wav", "o.wav"] = pymain witLib ["p", "f.wav", "o.wav"] :=
  claim_C7 witLib ["p", "f.wav", "o.wav"]
    (pymain witLib ["p", "f.wav", "o.wav"]) (pymain witLib ["p", "f.wav", "o.wav"]) rfl rfl

/-- C10: on a successful run the bytes written to stdout do not depend on
the `original_filename` argument — the whole outcome is the same for any
two labels, and the exit code is 0; the label can only ever reach the
stderr diagnostic of the failure path. -/
theorem claim_C10 (lib : Libs) (prog path o1 o2 : String) (feats : Features)
    (h : feature_pipeline lib path = Except.ok feats) :
    (pymain lib [prog, path, o1]).stdout = (pymain lib [prog, path, o2]).stdout ∧
    pymain lib [prog, path, o1] = pymain lib [prog, path, o2] ∧
    (pymain lib [prog, path, o1]).exitCode = 0 := by
  rw [pymain_ok lib prog path o1 feats h, pymain_ok lib prog path o2 feats h]
  exact ⟨rfl, rfl, rfl⟩

/-- C10 witness: two labels, same file, same stdout. -/
theorem claim_C10_w :
    (pymain witLib ["p", "f.wav", "labelA"]).stdout =
      (pymain witLib ["p", "f.wav", "labelB"]).stdout ∧
    pymain witLib ["p", "f.wav", "labelA"] = pymain witLib ["p", "f.wav", "labelB"] ∧
    (pymain witLib ["p", "f.wav", "labelA"]).exitCode = 0 :=
  claim_C10 witLib "p" "f.wav" "labelA" "labelB" wFeats rfl

end VoiceResonance
